import Mathlib

/-!
Verification of the annotate-rank-select pipeline and the retrying download
primitive of the entropic-aurora repository.

The embedding models the Python sources `src/screener.py`, `src/shorts_scorer.py`
and `src/pdf_downloader.py`.  External collaborators (the generative-model call,
`json.loads`, the HTTP fetch) are passed in as oracle functions; a raised Python
exception from such a collaborator is modelled as the `.error` branch of an
`Except`, carrying the exception's message.  Python dict-shaped records are
modelled by a structure of optional fields, where `none` means the key is
absent.  Numeric score fields coming from parsed JSON are modelled as rationals
(`ℚ`), which cover both Python ints and the decimal floats exercised here.
-/

namespace EntropicAurora

/-- A Python dict-shaped annotation record, as produced by `json.loads` and by
the per-item operations of `screener.py` and `shorts_scorer.py`.  A field set to
`none` models the key being absent from the dict; `data` stands for all the
remaining schema-specific textual payload of the record. -/
structure PyDict where
  paper_id : Option String := none
  error : Option String := none
  total_score : Option ℚ := none
  verdict : Option String := none
  data : String := ""
deriving DecidableEq

/-- A paper metadata record (an Item).  `id` and `pdf_url` model
`paper.get("id")` and `paper.get("pdf_url")`; `title` and `abstract` carry the
free-text payload that distinguishes items. -/
structure Paper where
  id : Option String := none
  title : String := ""
  abstract : String := ""
  pdf_url : Option String := none
deriving DecidableEq

/-! ## shorts_scorer.judge_verdict (src/shorts_scorer.py lines 91-106) -/

/-- `judge_verdict` from `shorts_scorer.py`: pure threshold classification of a
total score into ADOPT_HIGH (80+), ADOPT_MID (65-79) or SKIP (below 65). -/
def judge_verdict (total_score : ℚ) : String :=
  if total_score ≥ 80 then "ADOPT_HIGH"
  else if total_score ≥ 65 then "ADOPT_MID"
  else "SKIP"

/-! ## Brace-scanning JSON extraction (screener.py lines 81-83, shorts_scorer.py
lines 142-144): `start = text.find("\x7b")`, `end = text.rfind("\x7d") + 1`,
slice `text[start:end]` when `start != -1 and end > start`. -/

/-- The brace-scanning payload locator shared by `screen_paper` and
`score_paper`: the substring from the first opening brace to the last closing
brace, or `none` when no such pair exists. -/
def extractJson (s : String) : Option String :=
  let cs := s.toList
  match cs.findIdx? (fun c => c == '{') with
  | none => none
  | some start =>
    match cs.reverse.findIdx? (fun c => c == '}') with
    | none => none
    | some j =>
      let stop := cs.length - j
      if start < stop then some (String.mk ((cs.drop start).take (stop - start)))
      else none

/-! ## Screener.screen_paper (src/screener.py lines 60-93) -/

/-- `Screener.screen_paper`.  `loads` is the `json.loads` oracle (its `.error`
branch models a raised `JSONDecodeError`, carrying `str(e)`); `reply` is the
outcome of `self.model.generate_content(prompt)` followed by `.text` (its
`.error` branch models a raised transport exception).  The function is total:
every path returns a record, mirroring that the Python code catches every
exception. -/
def screen_paper (loads : String → Except String PyDict) (paper : Paper)
    (reply : Except String String) : PyDict :=
  match reply with
  | .error e => { paper_id := paper.id, error := some e }
  | .ok result_text =>
    match extractJson result_text with
    | none => { paper_id := paper.id, error := some "Invalid format" }
    | some sub =>
      match loads sub with
      | .error e => { paper_id := paper.id, error := some e }
      | .ok result => { result with paper_id := paper.id }

/-! ## ShortsScorer.score_paper (src/shorts_scorer.py lines 122-159) -/

/-- `ShortsScorer.score_paper`: like `screen_paper` but it additionally derives
`verdict` locally via `judge_verdict` on the parsed `total_score` (default 0),
and both error branches carry `verdict = "SKIP"`. -/
def score_paper (loads : String → Except String PyDict) (paper : Paper)
    (reply : Except String String) : PyDict :=
  match reply with
  | .error e => { paper_id := paper.id, error := some e, verdict := some "SKIP" }
  | .ok result_text =>
    match extractJson result_text with
    | none => { paper_id := paper.id, error := some "Invalid format", verdict := some "SKIP" }
    | some sub =>
      match loads sub with
      | .error e => { paper_id := paper.id, error := some e, verdict := some "SKIP" }
      | .ok result =>
        let result := { result with paper_id := paper.id }
        let total_score := result.total_score.getD 0
        { result with verdict := some (judge_verdict total_score) }

/-! ## Sequential annotation pipelines (screener.py lines 95-120,
shorts_scorer.py lines 161-186).  `reply i` is the generative-model outcome of
the i-th call; the inter-call `time.sleep` delay does not affect the returned
list and is not modelled.  The second `Nat` argument is the index of the next
call. -/

/-- `Screener.screen_papers`: calls `screen_paper` once per paper in input
order, appending each result. -/
def screen_papers (loads : String → Except String PyDict)
    (reply : Nat → Except String String) : List Paper → Nat → List PyDict
  | [], _ => []
  | p :: ps, i => screen_paper loads p (reply i) :: screen_papers loads reply ps (i + 1)

/-- `ShortsScorer.score_papers`: calls `score_paper` once per paper in input
order, appending each result. -/
def score_papers (loads : String → Except String PyDict)
    (reply : Nat → Except String String) : List Paper → Nat → List PyDict
  | [], _ => []
  | p :: ps, i => score_paper loads p (reply i) :: score_papers loads reply ps (i + 1)

/-- `ShortsScorer.filter_by_verdict` (shorts_scorer.py lines 188-208): keep the
records whose `verdict` is among the accepted tiers. -/
def filter_by_verdict (scores : List PyDict) (include_mid : Bool) : List PyDict :=
  if include_mid then
    scores.filter (fun s => s.verdict == some "ADOPT_HIGH" || s.verdict == some "ADOPT_MID")
  else
    scores.filter (fun s => s.verdict == some "ADOPT_HIGH")

/-! ## Screener.select_top_papers (src/screener.py lines 122-166) -/

/-- `r.get("total_score", 0)` as used by `select_top_papers`. -/
def get_total_score (r : PyDict) : ℚ := r.total_score.getD 0

/-- The validity filter of `select_top_papers` (lines 145-148): no "error" key
and total score at least `min_score`. -/
def is_valid_result (min_score : ℚ) (r : PyDict) : Bool :=
  r.error == none && decide (get_total_score r ≥ min_score)

/-- Stable insertion of a record into a score-descending list: the record goes
before the first element whose score it meets or exceeds, hence after all
earlier-inserted records of equal score.  Together with `sortDesc` this
computes exactly the output of Python's stable
`sorted(key=total_score, reverse=True)` of lines 151-155: a stable sort's
output is uniquely determined by the key order and the input order. -/
def insertDesc (r : PyDict) : List PyDict → List PyDict
  | [] => [r]
  | x :: xs =>
    if get_total_score r ≥ get_total_score x then r :: x :: xs
    else x :: insertDesc r xs

/-- Stable score-descending sort (screener.py lines 151-155). -/
def sortDesc : List PyDict → List PyDict
  | [] => []
  | r :: rs => insertDesc r (sortDesc rs)

/-- Lookup in the dict built by `\x7bp.get("id"): p for p in papers\x7d`
(line 142): a Python dict comprehension lets a later duplicate key overwrite an
earlier one, so the lookup finds the last paper bearing the identifier. -/
def dict_lookup (papers : List Paper) (k : Option String) : Option Paper :=
  (papers.filter (fun p => p.id == k)).getLast?

/-- `Screener.select_top_papers`: filter out error markers and sub-threshold
scores, sort by total score descending (stable), truncate to `top_n`, and join
each surviving result with its paper (the merged dict
`\x7b**paper_map[paper_id], "screening": result\x7d` is modelled as the pair);
results whose identifier is absent from the paper index are silently dropped. -/
def select_top_papers (screening_results : List PyDict) (papers : List Paper)
    (top_n : Nat) (min_score : ℚ) : List (Paper × PyDict) :=
  let valid_results := screening_results.filter (is_valid_result min_score)
  let sorted_results := (sortDesc valid_results).take top_n
  sorted_results.filterMap (fun r => (dict_lookup papers r.paper_id).map (fun p => (p, r)))

/-! ## pdf_downloader.py

The filesystem is an association list from path to file content; the HTTP
oracle `fetch url attempt` yields the body of a successful
`client.get(url)` + `raise_for_status()` or the message of the raised
exception (network error, non-success status, timeout).  Observable effects
are recorded as an event trace: one `netCall` per HTTP attempt, one `wait` per
`asyncio.sleep`, one `fileWrite` per `output_path.write_bytes`.  Log emission
and the progress bar are unobservable side channels and are not traced. -/

/-- On-disk state: an association list mapping a path to its content. -/
abbrev FS := List (String × String)

/-- Whether `path` exists in the filesystem (`output_path.exists()`). -/
def fsLookup (fs : FS) (path : String) : Option String :=
  (fs.filter (fun kv => kv.1 == path)).head?.map (fun kv => kv.2)

/-- Python-dict-style store: overwrite in place when the key exists, append
otherwise.  Also models `results[paper_id] = success` on bool dicts. -/
def pyDictSet {α : Type} (d : List (String × α)) (k : String) (v : α) :
    List (String × α) :=
  if d.any (fun kv => kv.1 == k) then
    d.map (fun kv => if kv.1 == k then (k, v) else kv)
  else d ++ [(k, v)]

/-- An observable effect of the downloader. -/
inductive Ev where
  | netCall (url : String)
  | wait (secs : Nat)
  | fileWrite (path : String)
deriving DecidableEq

/-- Module constant `BACKOFF_FACTOR = 2` (pdf_downloader.py line 22). -/
def BACKOFF_FACTOR : Nat := 2

/-- Python's `s.replace("/", "_")`: every slash becomes an underscore. -/
def replaceSlash (s : String) : String :=
  String.mk (s.toList.map (fun c => if c == '/' then '_' else c))

/-- The destination path `output_dir / f"\x7bpaper_id\x7d.pdf"` with
`paper.get("id", "unknown").replace("/", "_")` (lines 48-49). -/
def paper_pdf_path (output_dir : String) (paper : Paper) : String :=
  output_dir ++ "/" ++ replaceSlash (paper.id.getD "unknown") ++ ".pdf"

/-- The retry loop `for attempt in range(max_retries)` (lines 56-72): each
attempt issues one HTTP call; success writes the payload and returns `true`;
failure sleeps `BACKOFF_FACTOR ** attempt` seconds and continues; exhaustion
returns `false`.  The first argument of the recursion is the number of
attempts left, the second the current attempt index. -/
def download_attempts (fetch : Nat → Except String String) (url path : String)
    (fs : FS) : Nat → Nat → FS × Bool × List Ev
  | 0, _ => (fs, false, [])
  | n + 1, attempt =>
    match fetch attempt with
    | .ok content =>
      (pyDictSet fs path content, true, [.netCall url, .fileWrite path])
    | .error _ =>
      let rest := download_attempts fetch url path fs n (attempt + 1)
      (rest.1, rest.2.1, .netCall url :: .wait (BACKOFF_FACTOR ^ attempt) :: rest.2.2)

/-- `download_pdf_async` (pdf_downloader.py lines 25-75): a falsy
(`None` or empty) `pdf_url` returns `false` at once; an already existing
destination returns `true` with no effect; otherwise the retry loop runs. -/
def download_pdf_async (fetch : String → Nat → Except String String)
    (paper : Paper) (output_dir : String) (fs : FS) (max_retries : Nat := 3) :
    FS × Bool × List Ev :=
  match paper.pdf_url with
  | none => (fs, false, [])
  | some url =>
    if url == "" then (fs, false, [])
    else
      let output_path := paper_pdf_path output_dir paper
      if (fsLookup fs output_path).isSome then (fs, true, [])
      else download_attempts (fetch url) url output_path fs max_retries 0

/-- The key under which `download_papers_batch` records an item's outcome:
`paper.get("id", "unknown")` (line 101). -/
def batch_key (paper : Paper) : String := paper.id.getD "unknown"

/-- Sequential unfolding of the bounded concurrent batch (lines 96-113): each
item runs `download_pdf_async` against the current filesystem and stores its
outcome under its key in the results dict.  This realizes one task schedule;
in the running program the semaphore-bounded tasks interleave and populate the
results dict in completion order, so the dict's insertion order is
schedule-dependent.  Only order-insensitive consequences — which keys are
present, each key's value, and (for items with distinct identifiers, hence
disjoint destination paths) the final filesystem — carry over to every
schedule, and only such consequences are stated about this function. -/
def batch_go (fetch : String → Nat → Except String String) (output_dir : String) :
    List Paper → FS → List (String × Bool) → List Ev → FS × List (String × Bool) × List Ev
  | [], fs, results, evs => (fs, results, evs)
  | p :: ps, fs, results, evs =>
    let r := download_pdf_async fetch p output_dir fs
    batch_go fetch output_dir ps r.1 (pyDictSet results (batch_key p) r.2.1) (evs ++ r.2.2)

/-- `download_papers_batch` (pdf_downloader.py lines 78-118): runs every item
to resolution and returns the final filesystem, the identifier→success dict
and the event trace. -/
def download_papers_batch (fetch : String → Nat → Except String String)
    (papers : List Paper) (output_dir : String) (fs : FS) :
    FS × List (String × Bool) × List Ev :=
  batch_go fetch output_dir papers fs [] []

/-! ## Concrete fixtures used by the verification scenarios -/

/-- A minimal paper fixture. -/
def paper0 : Paper := { id := some "2401.00001" }

/-- A `json.loads` oracle that fails on every substring, modelling the
`JSONDecodeError` raised on a non-JSON payload, carrying `str(e)`. -/
def loadsFail : String → Except String PyDict :=
  fun _ => .error "Expecting value: line 1 column 1 (char 0)"

/-- A `json.loads` oracle returning a fixed parsed record. -/
def loadsConst (d : PyDict) : String → Except String PyDict := fun _ => .ok d

/-- Item A of the ranking scenario. -/
def paperA : Paper := { id := some "A", title := "paper A" }

/-- Item B of the ranking scenario. -/
def paperB : Paper := { id := some "B", title := "paper B" }

/-- Item C of the ranking scenario. -/
def paperC : Paper := { id := some "C", title := "paper C" }

/-- Item D of the ranking scenario. -/
def paperD : Paper := { id := some "D", title := "paper D" }

/-- Annotation of A: score 90. -/
def resultA : PyDict := { paper_id := some "A", total_score := some 90 }

/-- Annotation of B: score 60, below the threshold 65. -/
def resultB : PyDict := { paper_id := some "B", total_score := some 60 }

/-- Annotation of C: score 85. -/
def resultC : PyDict := { paper_id := some "C", total_score := some 85 }

/-- Annotation of D: an error marker. -/
def resultD : PyDict := { paper_id := some "D", error := some "quota exceeded" }

/-- First-occurring item with the duplicated identifier "x". -/
def firstDup : Paper := { id := some "x", title := "first occurrence" }

/-- Later item with the duplicated identifier "x". -/
def secondDup : Paper := { id := some "x", title := "second occurrence" }

/-- A valid annotation keyed to the duplicated identifier "x". -/
def resultDup : PyDict := { paper_id := some "x", total_score := some 70 }

/-- Tie scenario: X with score 70, appearing first. -/
def resultX : PyDict := { paper_id := some "X", total_score := some 70, data := "X first" }

/-- Tie scenario: Y with score 70, appearing second. -/
def resultY : PyDict := { paper_id := some "Y", total_score := some 70, data := "Y second" }

/-- Item X of the tie scenario. -/
def paperX : Paper := { id := some "X" }

/-- Item Y of the tie scenario. -/
def paperY : Paper := { id := some "Y" }

/-- An HTTP oracle whose every attempt fails (network error / timeout). -/
def failFetch : String → Nat → Except String String := fun _ _ => .error "timeout"

/-- An HTTP oracle whose every attempt succeeds. -/
def okFetch : String → Nat → Except String String := fun _ _ => .ok "pdf bytes"

/-- A downloadable paper fixture with a locator. -/
def dlPaper : Paper := { id := some "p1", pdf_url := some "http://x/p1.pdf" }

/-- A paper without any `pdf_url`. -/
def noUrlPaper : Paper := { id := some "p1" }

/-- First paper of the duplicate-identifier batch. -/
def dupPaper1 : Paper := { id := some "a", pdf_url := some "http://x/a1.pdf" }

/-- Second paper of the duplicate-identifier batch: same id, other locator. -/
def dupPaper2 : Paper := { id := some "a", pdf_url := some "http://x/a2.pdf" }

/-- First paper of the distinct-identifier batch. -/
def distinct1 : Paper := { id := some "b1", pdf_url := some "http://x/b1.pdf" }

/-- Second paper of the distinct-identifier batch. -/
def distinct2 : Paper := { id := some "b2", pdf_url := some "http://x/b2.pdf" }

/-- Recognizer for HTTP-attempt events. -/
def isNetCall : Ev → Bool
  | .netCall _ => true
  | _ => false

/-- Decides whether every wait event of a trace is followed by a later
HTTP attempt, i.e. whether waits occur only between attempts. -/
def wait_only_between : List Ev → Bool
  | [] => true
  | Ev.wait _ :: rest => rest.any isNetCall && wait_only_between rest
  | _ :: rest => wait_only_between rest

end EntropicAurora

namespace EntropicAurora

/-! ## Helper lemmas -/

/-- `judge_verdict` can only return one of the three tiers. -/
theorem judge_verdict_mem (t : ℚ) :
    judge_verdict t = "ADOPT_HIGH" ∨ judge_verdict t = "ADOPT_MID" ∨
      judge_verdict t = "SKIP" := by
  unfold judge_verdict
  split
  · exact Or.inl rfl
  · split
    · exact Or.inr (Or.inl rfl)
    · exact Or.inr (Or.inr rfl)

/-! ## Claim theorems -/

/-- C1: `judge_verdict` is a pure total function with tier boundaries at 80 and
65 (total=79 → MID, total=80 → HIGH, total=64.9 → SKIP), and a scoring reply
that fails to parse — whether no brace pair is found or the extracted substring
fails to load — always yields a record with verdict SKIP, regardless of any
numeric content of the raw text. -/
theorem judge_verdict_tier_derivation :
    (∀ t : ℚ, 80 ≤ t → judge_verdict t = "ADOPT_HIGH") ∧
    (∀ t : ℚ, 65 ≤ t → t < 80 → judge_verdict t = "ADOPT_MID") ∧
    (∀ t : ℚ, t < 65 → judge_verdict t = "SKIP") ∧
    judge_verdict 79 = "ADOPT_MID" ∧
    judge_verdict 80 = "ADOPT_HIGH" ∧
    judge_verdict (64.9 : ℚ) = "SKIP" ∧
    (∀ loads paper text, extractJson text = none →
      (score_paper loads paper (.ok text)).verdict = some "SKIP") ∧
    (∀ loads paper text sub e, extractJson text = some sub → loads sub = .error e →
      (score_paper loads paper (.ok text)).verdict = some "SKIP") := by
  refine ⟨?_, ?_, ?_, by norm_num [judge_verdict], by norm_num [judge_verdict],
    by norm_num [judge_verdict], ?_, ?_⟩
  · intro t h
    simp [judge_verdict, ge_iff_le, h]
  · intro t h1 h2
    simp [judge_verdict, ge_iff_le, h1, not_le.mpr h2]
  · intro t h
    have h80 : t < 80 := lt_trans h (by norm_num)
    simp [judge_verdict, ge_iff_le, not_le.mpr h, not_le.mpr h80]
  · intro loads paper text h
    simp [score_paper, h]
  · intro loads paper text sub e hx hl
    simp [score_paper, hx, hl]

/-- Witness for C1 at concrete inputs. -/
theorem judge_verdict_tier_derivation_witness :
    judge_verdict 100 = "ADOPT_HIGH" ∧ judge_verdict 70 = "ADOPT_MID" ∧
    judge_verdict 10 = "SKIP" ∧
    (score_paper loadsFail paper0 (.ok "total_score 95 but no braces")).verdict
      = some "SKIP" ∧
    (score_paper loadsFail paper0 (.ok "x\x7btotal_score: 95\x7dz")).verdict
      = some "SKIP" :=
  ⟨judge_verdict_tier_derivation.1 100 (by norm_num),
   judge_verdict_tier_derivation.2.1 70 (by norm_num) (by norm_num),
   judge_verdict_tier_derivation.2.2.1 10 (by norm_num),
   judge_verdict_tier_derivation.2.2.2.2.2.2.1 loadsFail paper0 _ rfl,
   judge_verdict_tier_derivation.2.2.2.2.2.2.2 loadsFail paper0 _
     "\x7btotal_score: 95\x7d" "Expecting value: line 1 column 1 (char 0)" rfl rfl⟩

/-- C4 counterexample: the diagnostic of the no-brace-pair path is
"Invalid format" (capital I), not "invalid format"; and when the extracted
substring fails to load, the diagnostic is the parser exception's message,
not "invalid format" at all. -/
theorem screen_paper_diagnostic_counterexample :
    (screen_paper loadsFail paper0 (.ok "no payload at all")).error
      = some "Invalid format" ∧
    ((screen_paper loadsFail paper0 (.ok "no payload at all")).error
      ≠ some "invalid format") ∧
    (screen_paper loadsFail paper0 (.ok "pre \x7bbad\x7d post")).error
      = some "Expecting value: line 1 column 1 (char 0)" ∧
    ((screen_paper loadsFail paper0 (.ok "pre \x7bbad\x7d post")).error
      ≠ some "invalid format") := by
  refine ⟨rfl, by decide, rfl, by decide⟩

/-- C4 as amended: `screen_paper` and `score_paper` are total — every branch
returns a record rather than propagating an exception — and when the reply
contains no brace pair the error marker's diagnostic is "Invalid format"
(capitalized), while when the extracted substring fails to parse the error
marker carries the parser exception's message. -/
theorem screen_paper_error_marker :
    (∀ loads paper text, extractJson text = none →
      screen_paper loads paper (.ok text)
        = { paper_id := paper.id, error := some "Invalid format" } ∧
      score_paper loads paper (.ok text)
        = { paper_id := paper.id, error := some "Invalid format",
            verdict := some "SKIP" }) ∧
    (∀ loads paper text sub e, extractJson text = some sub → loads sub = .error e →
      screen_paper loads paper (.ok text) = { paper_id := paper.id, error := some e } ∧
      score_paper loads paper (.ok text)
        = { paper_id := paper.id, error := some e, verdict := some "SKIP" }) := by
  constructor
  · intro loads paper text h
    exact ⟨by simp [screen_paper, h], by simp [score_paper, h]⟩
  · intro loads paper text sub e hx hl
    exact ⟨by simp [screen_paper, hx, hl], by simp [score_paper, hx, hl]⟩

/-- Witness for the amended C4 at concrete inputs. -/
theorem screen_paper_error_marker_witness :
    screen_paper loadsFail paper0 (.ok "no payload at all")
      = { paper_id := some "2401.00001", error := some "Invalid format" } ∧
    score_paper loadsFail paper0 (.ok "pre \x7bbad\x7d post")
      = { paper_id := some "2401.00001",
          error := some "Expecting value: line 1 column 1 (char 0)",
          verdict := some "SKIP" } :=
  ⟨(screen_paper_error_marker.1 loadsFail paper0 "no payload at all" rfl).1,
   (screen_paper_error_marker.2 loadsFail paper0 "pre \x7bbad\x7d post" "\x7bbad\x7d"
     "Expecting value: line 1 column 1 (char 0)" rfl rfl).2⟩

/-- C10: every record returned by `score_paper` carries a verdict among
ADOPT_HIGH, ADOPT_MID and SKIP; every error path (transport exception, missing
brace pair, unparseable substring) carries verdict SKIP; and
`filter_by_verdict` only ever selects records whose verdict is ADOPT_HIGH or
ADOPT_MID — hence never a record produced on an error path. -/
theorem score_paper_verdict_invariant :
    (∀ loads paper reply,
      (score_paper loads paper reply).verdict = some "ADOPT_HIGH" ∨
      (score_paper loads paper reply).verdict = some "ADOPT_MID" ∨
      (score_paper loads paper reply).verdict = some "SKIP") ∧
    (∀ loads paper e, (score_paper loads paper (.error e)).verdict = some "SKIP") ∧
    (∀ loads paper text, extractJson text = none →
      (score_paper loads paper (.ok text)).verdict = some "SKIP") ∧
    (∀ loads paper text sub e, extractJson text = some sub → loads sub = .error e →
      (score_paper loads paper (.ok text)).verdict = some "SKIP") ∧
    (∀ scores include_mid s, s ∈ filter_by_verdict scores include_mid →
      s.verdict = some "ADOPT_HIGH" ∨ s.verdict = some "ADOPT_MID") := by
  refine ⟨?_, ?_, ?_, ?_, ?_⟩
  · intro loads paper reply
    match reply with
    | .error e => simp [score_paper]
    | .ok text =>
      match hx : extractJson text with
      | none => simp [score_paper, hx]
      | some sub =>
        match hl : loads sub with
        | .error e => simp [score_paper, hx, hl]
        | .ok result =>
          have := judge_verdict_mem ((PyDict.total_score result).getD 0)
          simp only [score_paper, hx, hl]
          rcases this with h | h | h
          · exact Or.inl (by simp [h])
          · exact Or.inr (Or.inl (by simp [h]))
          · exact Or.inr (Or.inr (by simp [h]))
  · intro loads paper e
    simp [score_paper]
  · intro loads paper text h
    simp [score_paper, h]
  · intro loads paper text sub e hx hl
    simp [score_paper, hx, hl]
  · intro scores include_mid s hs
    cases include_mid with
    | true =>
      simp only [filter_by_verdict, if_true, List.mem_filter, Bool.or_eq_true,
        beq_iff_eq] at hs
      rcases hs.2 with h | h
      · exact Or.inl h
      · exact Or.inr h
    | false =>
      simp only [filter_by_verdict, Bool.false_eq_true, if_false, List.mem_filter,
        beq_iff_eq] at hs
      exact Or.inl hs.2

/-- Every branch of `screen_paper` attaches the input paper's identifier. -/
theorem screen_paper_paper_id (loads : String → Except String PyDict) (paper : Paper)
    (reply : Except String String) :
    (screen_paper loads paper reply).paper_id = paper.id := by
  match reply with
  | .error e => simp [screen_paper]
  | .ok text =>
    match hx : extractJson text with
    | none => simp [screen_paper, hx]
    | some sub =>
      match hl : loads sub with
      | .error e => simp [screen_paper, hx, hl]
      | .ok result => simp [screen_paper, hx, hl]

/-- C8: the sequential annotation pipeline returns one result per input item,
in input order: the output has the same length as the input batch and its
positional sequence of attached identifiers equals the input identifier
sequence, for every `json.loads` oracle and every per-call reply oracle
(hence under any pattern of parse failures or transport errors). -/
theorem screen_papers_order_preservation :
    ∀ (loads : String → Except String PyDict) (reply : Nat → Except String String)
      (papers : List Paper) (i : Nat),
      (screen_papers loads reply papers i).length = papers.length ∧
      (screen_papers loads reply papers i).map (fun r => r.paper_id)
        = papers.map (fun p => p.id) := by
  intro loads reply papers
  induction papers with
  | nil => intro i; simp [screen_papers]
  | cons p ps ih =>
    intro i
    refine ⟨?_, ?_⟩
    · simp [screen_papers, (ih (i + 1)).1]
    · simp [screen_papers, screen_paper_paper_id, (ih (i + 1)).2]

/-- Membership is invariant under `insertDesc`. -/
theorem mem_insertDesc {a r : PyDict} {l : List PyDict} :
    a ∈ insertDesc r l ↔ a = r ∨ a ∈ l := by
  induction l with
  | nil => simp [insertDesc]
  | cons x xs ih =>
    simp only [insertDesc]
    split
    · simp [List.mem_cons]
    · simp [List.mem_cons, ih]
      tauto

/-- Membership is invariant under `sortDesc`. -/
theorem mem_sortDesc {a : PyDict} {l : List PyDict} : a ∈ sortDesc l ↔ a ∈ l := by
  induction l with
  | nil => simp [sortDesc]
  | cons r rs ih => simp [sortDesc, mem_insertDesc, ih]

/-- `insertDesc` preserves the score-descending pairwise order. -/
theorem pairwise_insertDesc {r : PyDict} {l : List PyDict}
    (h : l.Pairwise (fun a b => get_total_score b ≤ get_total_score a)) :
    (insertDesc r l).Pairwise (fun a b => get_total_score b ≤ get_total_score a) := by
  induction l with
  | nil => simp [insertDesc]
  | cons x xs ih =>
    simp only [insertDesc]
    split
    · rename_i hge
      refine List.pairwise_cons.mpr ⟨?_, h⟩
      intro b hb
      rcases List.mem_cons.mp hb with rfl | hb
      · exact hge
      · exact le_trans ((List.pairwise_cons.mp h).1 b hb) hge
    · rename_i hlt
      have hx := List.pairwise_cons.mp h
      refine List.pairwise_cons.mpr ⟨?_, ih hx.2⟩
      intro b hb
      rcases mem_insertDesc.mp hb with rfl | hb
      · exact le_of_lt (not_le.mp hlt)
      · exact hx.1 b hb

/-- `sortDesc` output is pairwise score-descending. -/
theorem pairwise_sortDesc (l : List PyDict) :
    (sortDesc l).Pairwise (fun a b => get_total_score b ≤ get_total_score a) := by
  induction l with
  | nil => simp [sortDesc]
  | cons r rs ih => exact pairwise_insertDesc ih

/-- Stability of `insertDesc`: restricted to any one score class, insertion
puts the new record first and keeps the rest in order. -/
theorem filter_insertDesc (r : PyDict) (l : List PyDict) (s : ℚ) :
    (insertDesc r l).filter (fun x => decide (get_total_score x = s))
      = if get_total_score r = s
          then r :: l.filter (fun x => decide (get_total_score x = s))
          else l.filter (fun x => decide (get_total_score x = s)) := by
  induction l with
  | nil =>
    by_cases hr : get_total_score r = s <;> simp [insertDesc, List.filter_cons, hr]
  | cons x xs ih =>
    simp only [insertDesc]
    split
    · by_cases hr : get_total_score r = s <;> simp [List.filter_cons, hr]
    · rename_i hlt
      by_cases hr : get_total_score r = s <;>
        by_cases hx : get_total_score x = s <;>
          simp [List.filter_cons, hr, hx, ih]
      exact absurd (le_trans hx.le hr.ge) hlt

/-- Stability of `sortDesc`: the sort permutes nothing within a score class —
the records of any one total score appear in exactly their input order. -/
theorem filter_sortDesc (l : List PyDict) (s : ℚ) :
    (sortDesc l).filter (fun x => decide (get_total_score x = s))
      = l.filter (fun x => decide (get_total_score x = s)) := by
  induction l with
  | nil => rfl
  | cons r rs ih =>
    by_cases hr : get_total_score r = s <;>
      simp [sortDesc, filter_insertDesc, hr, List.filter_cons, ih]

/-- The results joined by the final `filterMap` of `select_top_papers` are the
sorted results whose identifier resolves in the paper index. -/
theorem map_snd_filterMap (l : List PyDict) (g : PyDict → Option Paper) :
    (l.filterMap (fun r => (g r).map (fun p => (p, r)))).map Prod.snd
      = l.filter (fun r => (g r).isSome) := by
  induction l with
  | nil => rfl
  | cons r rs ih =>
    cases hg : g r <;> simp [List.filterMap_cons, List.filter_cons, hg, ih]

/-- A record found by `getLast?` after a filter is the last element of the
list satisfying the filter. -/
theorem getLast?_filter_eq_some {f : Paper → Bool} :
    ∀ {l : List Paper} {p : Paper}, (l.filter f).getLast? = some p →
      f p = true ∧ ∃ pre suf, l = pre ++ p :: suf ∧ ∀ q ∈ suf, f q = false := by
  intro l
  induction l with
  | nil => intro p h; simp [List.filter] at h
  | cons a l ih =>
    intro p h
    by_cases ha : f a
    · rw [List.filter_cons_of_pos ha] at h
      cases hlf : l.filter f with
      | nil =>
        rw [hlf] at h
        simp only [List.getLast?_singleton, Option.some.injEq] at h
        subst h
        refine ⟨ha, [], l, rfl, fun q hq => ?_⟩
        by_contra hfq
        simp only [Bool.not_eq_false] at hfq
        have hq2 : q ∈ l.filter f := List.mem_filter.mpr ⟨hq, hfq⟩
        rw [hlf] at hq2
        exact absurd hq2 (List.not_mem_nil q)
      | cons b m =>
        rw [hlf, List.getLast?_cons_cons, ← hlf] at h
        obtain ⟨hfp, pre, suf, hl, hsuf⟩ := ih h
        exact ⟨hfp, a :: pre, suf, by rw [hl]; rfl, hsuf⟩
    · rw [List.filter_cons, if_neg (by simpa using ha)] at h
      obtain ⟨hfp, pre, suf, hl, hsuf⟩ := ih h
      exact ⟨hfp, a :: pre, suf, by rw [hl]; rfl, hsuf⟩

/-- C2: every pair returned by `select_top_papers` stems from a result without
an "error" key whose total score meets the threshold; the returned pairs are
ordered by total score descending; at most `top_n` pairs are returned; and the
concrete scenario A(90), B(60), C(85), D(error), threshold 65, K=2 yields the
joined pairs for A then C. -/
theorem select_top_papers_correct :
    (∀ (results : List PyDict) (papers : List Paper) (top_n : Nat) (min_score : ℚ)
        (p : Paper) (r : PyDict),
        (p, r) ∈ select_top_papers results papers top_n min_score →
        r ∈ results ∧ r.error = none ∧ min_score ≤ get_total_score r) ∧
    (∀ results papers top_n min_score,
        ((select_top_papers results papers top_n min_score).map
            (fun pr => get_total_score pr.2)).Pairwise (fun a b => b ≤ a)) ∧
    (∀ results papers top_n min_score,
        (select_top_papers results papers top_n min_score).length ≤ top_n) ∧
    select_top_papers [resultA, resultB, resultC, resultD]
        [paperA, paperB, paperC, paperD] 2 65
      = [(paperA, resultA), (paperC, resultC)] := by
  refine ⟨?_, ?_, ?_, ?_⟩
  · intro results papers top_n min_score p r hmem
    simp only [select_top_papers, List.mem_filterMap] at hmem
    obtain ⟨a, ha, hmap⟩ := hmem
    obtain ⟨q, hq, hqa⟩ := Option.map_eq_some'.mp hmap
    rw [Prod.mk.injEq] at hqa
    obtain ⟨rfl, rfl⟩ := hqa
    have hsort : a ∈ sortDesc (results.filter (is_valid_result min_score)) :=
      (List.take_sublist _ _).subset ha
    have hfil := mem_sortDesc.mp hsort
    obtain ⟨hres, hval⟩ := List.mem_filter.mp hfil
    simp only [is_valid_result, Bool.and_eq_true, beq_iff_eq, decide_eq_true_eq] at hval
    exact ⟨hres, hval.1, hval.2⟩
  · intro results papers top_n min_score
    have h1 : (select_top_papers results papers top_n min_score).map
        (fun pr => get_total_score pr.2)
        = ((select_top_papers results papers top_n min_score).map Prod.snd).map
            get_total_score := by
      rw [List.map_map]; rfl
    rw [h1, select_top_papers, map_snd_filterMap]
    refine List.pairwise_map.mpr ?_
    refine List.Pairwise.sublist ?_ (pairwise_sortDesc (results.filter (is_valid_result min_score)))
    exact (List.filter_sublist _).trans (List.take_sublist _ _)
  · intro results papers top_n min_score
    calc (select_top_papers results papers top_n min_score).length
        ≤ ((sortDesc (results.filter (is_valid_result min_score))).take top_n).length :=
          List.length_filterMap_le _ _
      _ ≤ top_n := List.length_take_le _ _
  · norm_num [select_top_papers, is_valid_result, get_total_score, sortDesc, insertDesc,
      dict_lookup, resultA, resultB, resultC, resultD, paperA, paperB, paperC, paperD]
    decide

/-- Witness for C2 at a concrete member of a concrete selection. -/
theorem select_top_papers_correct_witness :
    resultA ∈ [resultA, resultB, resultC, resultD] ∧ resultA.error = none ∧
      (65 : ℚ) ≤ get_total_score resultA :=
  select_top_papers_correct.1 [resultA, resultB, resultC, resultD]
    [paperA, paperB, paperC, paperD] 2 65 paperA resultA
    (by rw [select_top_papers_correct.2.2.2]; exact List.mem_cons_self _ _)

/-- C3 counterexample: with two items sharing identifier "x", the joined pair
uses the later item, not the first-occurring one. -/
theorem select_top_papers_duplicate_counterexample :
    select_top_papers [resultDup] [firstDup, secondDup] 10 0
      = [(secondDup, resultDup)] ∧ secondDup ≠ firstDup := by
  constructor
  · norm_num [select_top_papers, is_valid_result, get_total_score, sortDesc, insertDesc,
      dict_lookup, resultDup, firstDup, secondDup]
    decide
  · decide

/-- C3 as amended: the identifier→item index built by `select_top_papers` lets
a later duplicate identifier overwrite an earlier one, so every joined pair
uses the last-occurring item with that identifier — after the joined item, no
item of the batch carries the same identifier. -/
theorem select_top_papers_last_occurrence_wins :
    ∀ (results : List PyDict) (papers : List Paper) (top_n : Nat) (min_score : ℚ)
      (p : Paper) (r : PyDict),
      (p, r) ∈ select_top_papers results papers top_n min_score →
      p.id = r.paper_id ∧
      ∃ pre suf, papers = pre ++ p :: suf ∧ ∀ q ∈ suf, q.id ≠ r.paper_id := by
  intro results papers top_n min_score p r hmem
  simp only [select_top_papers, List.mem_filterMap] at hmem
  obtain ⟨a, _, hmap⟩ := hmem
  obtain ⟨q, hq, hqa⟩ := Option.map_eq_some'.mp hmap
  rw [Prod.mk.injEq] at hqa
  obtain ⟨rfl, rfl⟩ := hqa
  obtain ⟨hfp, pre, suf, hl, hsuf⟩ := getLast?_filter_eq_some hq
  refine ⟨by simpa using hfp, pre, suf, hl, fun x hx => ?_⟩
  have := hsuf x hx
  simpa using this

/-- Witness for the amended C3 at the concrete duplicate scenario. -/
theorem select_top_papers_last_occurrence_wins_witness :
    secondDup.id = resultDup.paper_id ∧
    ∃ pre suf, [firstDup, secondDup] = pre ++ secondDup :: suf ∧
      ∀ q ∈ suf, q.id ≠ resultDup.paper_id :=
  select_top_papers_last_occurrence_wins [resultDup] [firstDup, secondDup] 10 0
    secondDup resultDup
    (by
      norm_num [select_top_papers, is_valid_result, get_total_score, sortDesc, insertDesc,
        dict_lookup, resultDup, firstDup, secondDup])

/-- C9: the descending sort inside `select_top_papers` is stable — within any
one score class the sorted order equals the input order; consequently the
score-s records surviving selection keep their input relative order (they form
a sublist of the input's score-s records); and the concrete tie X(70) before
Y(70), threshold 65, K=2 selects X before Y. -/
theorem select_top_papers_stable_tie_break :
    (∀ (l : List PyDict) (s : ℚ),
        (sortDesc l).filter (fun x => decide (get_total_score x = s))
          = l.filter (fun x => decide (get_total_score x = s))) ∧
    (∀ (results : List PyDict) (papers : List Paper) (top_n : Nat) (min_score : ℚ)
        (s : ℚ),
        (((select_top_papers results papers top_n min_score).map Prod.snd).filter
            (fun x => decide (get_total_score x = s))).Sublist
          (results.filter (fun x => decide (get_total_score x = s)))) ∧
    select_top_papers [resultX, resultY] [paperX, paperY] 2 65
      = [(paperX, resultX), (paperY, resultY)] := by
  refine ⟨filter_sortDesc, ?_, ?_⟩
  · intro results papers top_n min_score s
    rw [select_top_papers, map_snd_filterMap]
    have h1 : ((((sortDesc (results.filter (is_valid_result min_score))).take top_n).filter
          (fun r => (dict_lookup papers r.paper_id).isSome)).filter
            (fun x => decide (get_total_score x = s))).Sublist
        (((sortDesc (results.filter (is_valid_result min_score))).take top_n).filter
          (fun x => decide (get_total_score x = s))) :=
      List.Sublist.filter _ (List.filter_sublist _)
    have h2 : (((sortDesc (results.filter (is_valid_result min_score))).take top_n).filter
          (fun x => decide (get_total_score x = s))).Sublist
        ((sortDesc (results.filter (is_valid_result min_score))).filter
          (fun x => decide (get_total_score x = s))) :=
      List.Sublist.filter _ (List.take_sublist _ _)
    have h3 := filter_sortDesc (results.filter (is_valid_result min_score)) s
    have h4 : ((results.filter (is_valid_result min_score)).filter
          (fun x => decide (get_total_score x = s))).Sublist
        (results.filter (fun x => decide (get_total_score x = s))) :=
      List.Sublist.filter _ (List.filter_sublist _)
    have h5 := h1.trans h2
    rw [h3] at h5
    exact h5.trans h4
  · norm_num [select_top_papers, is_valid_result, get_total_score, sortDesc, insertDesc,
      dict_lookup, resultX, resultY, paperX, paperY]
    decide

/-- Witness for C10 at concrete inputs. -/
theorem score_paper_verdict_invariant_witness :
    ((score_paper loadsFail paper0 (.ok "free text")).verdict = some "ADOPT_HIGH" ∨
     (score_paper loadsFail paper0 (.ok "free text")).verdict = some "ADOPT_MID" ∨
     (score_paper loadsFail paper0 (.ok "free text")).verdict = some "SKIP") ∧
    (score_paper loadsFail paper0 (.error "quota")).verdict = some "SKIP" ∧
    (∀ s, s ∈ filter_by_verdict [score_paper loadsFail paper0 (.error "quota")] true →
      s.verdict = some "ADOPT_HIGH" ∨ s.verdict = some "ADOPT_MID") :=
  ⟨score_paper_verdict_invariant.1 loadsFail paper0 (.ok "free text"),
   score_paper_verdict_invariant.2.1 loadsFail paper0 "quota",
   fun s hs => score_paper_verdict_invariant.2.2.2.2 _ true s hs⟩

/-- When every attempt fails, the retry loop runs all its attempts, issuing one
HTTP call and then one wait of `BACKOFF_FACTOR ^ attempt` per attempt — the
last attempt included — leaving the filesystem unchanged and returning
failure. -/
theorem download_attempts_allFail (fetch : Nat → Except String String)
    (url path : String) (fs : FS) (h : ∀ i, ∃ e, fetch i = .error e) :
    ∀ n i, download_attempts fetch url path fs n i
      = (fs, false, (List.range' i n).flatMap
          (fun j => [Ev.netCall url, Ev.wait (BACKOFF_FACTOR ^ j)])) := by
  intro n
  induction n with
  | zero => intro i; simp [download_attempts]
  | succ m ih =>
    intro i
    obtain ⟨e, he⟩ := h i
    simp [download_attempts, he, ih (i + 1), List.range'_succ, List.flatMap_cons]

/-- A failure trace holds exactly one HTTP attempt per retry. -/
theorem countP_netCall_fail_trace (url : String) :
    ∀ n i, ((List.range' i n).flatMap
        (fun j => [Ev.netCall url, Ev.wait (BACKOFF_FACTOR ^ j)])).countP isNetCall = n := by
  intro n
  induction n with
  | zero => intro i; simp
  | succ m ih =>
    intro i
    simp [List.range'_succ, List.flatMap_cons, List.countP_cons, isNetCall, ih (i + 1)]

/-- C5 as amended: a fetch whose locator is present and whose destination is
absent, failing on every attempt, performs exactly `max_retries` HTTP attempts
and waits `BACKOFF_FACTOR ^ attempt_index` seconds after each failed attempt —
including after the final one, so the last wait is not followed by any attempt
— then returns failure with the filesystem unchanged (for backoff factor 2 and
the default 3 retries the waits are 1s, 2s, 4s). -/
theorem download_retry_bound :
    ∀ (fetch : String → Nat → Except String String) (paper : Paper) (url : String)
      (output_dir : String) (fs : FS) (max_retries : Nat),
      paper.pdf_url = some url → url ≠ "" →
      fsLookup fs (paper_pdf_path output_dir paper) = none →
      (∀ i, ∃ e, fetch url i = .error e) →
      download_pdf_async fetch paper output_dir fs max_retries
        = (fs, false, (List.range max_retries).flatMap
            (fun j => [Ev.netCall url, Ev.wait (BACKOFF_FACTOR ^ j)])) ∧
      (download_pdf_async fetch paper output_dir fs max_retries).2.2.countP isNetCall
        = max_retries := by
  intro fetch paper url output_dir fs max_retries hurl hne hfs hfail
  have hbeq : (url == "") = false := by
    simp only [beq_eq_false_iff_ne, ne_eq]
    exact hne
  have hmain : download_pdf_async fetch paper output_dir fs max_retries
      = (fs, false, (List.range max_retries).flatMap
          (fun j => [Ev.netCall url, Ev.wait (BACKOFF_FACTOR ^ j)])) := by
    rw [List.range_eq_range']
    simp only [download_pdf_async, hurl, hbeq, Bool.false_eq_true, if_false, hfs,
      Option.isSome_none]
    exact download_attempts_allFail (fetch url) url _ fs hfail max_retries 0
  refine ⟨hmain, ?_⟩
  rw [hmain]
  show ((List.range max_retries).flatMap
      (fun j => [Ev.netCall url, Ev.wait (BACKOFF_FACTOR ^ j)])).countP isNetCall
    = max_retries
  rw [List.range_eq_range']
  exact countP_netCall_fail_trace url max_retries 0

/-- Witness for the amended C5: three failing attempts at the default
configuration. -/
theorem download_retry_bound_witness :
    download_pdf_async failFetch dlPaper "output" [] 3
      = ([], false, (List.range 3).flatMap
          (fun j => [Ev.netCall "http://x/p1.pdf", Ev.wait (BACKOFF_FACTOR ^ j)])) ∧
    (download_pdf_async failFetch dlPaper "output" [] 3).2.2.countP isNetCall = 3 :=
  download_retry_bound failFetch dlPaper "http://x/p1.pdf" "output" [] 3 rfl
    (by decide) rfl (fun i => ⟨"timeout", rfl⟩)

/-- C5 counterexample: with the default 3 retries and an always-failing fetch,
the trace ends in a 4-second wait after the third (final) attempt, so a wait
occurs that is not between attempts, contradicting the claim that no wait
occurs other than between attempts. -/
theorem download_retry_trailing_wait_counterexample :
    (download_pdf_async failFetch dlPaper "output" [] 3).2.2
      = [Ev.netCall "http://x/p1.pdf", Ev.wait 1, Ev.netCall "http://x/p1.pdf",
         Ev.wait 2, Ev.netCall "http://x/p1.pdf", Ev.wait 4] ∧
    wait_only_between (download_pdf_async failFetch dlPaper "output" [] 3).2.2 = false ∧
    (download_pdf_async failFetch dlPaper "output" [] 3).2.1 = false :=
  ⟨by decide, by decide, by decide⟩

/-- `pyDictSet` with the value `true` preserves an all-`true` dict. -/
theorem mem_pyDictSet_true (d : List (String × Bool)) (k : String)
    (h : ∀ kb ∈ d, kb.2 = true) : ∀ kb ∈ pyDictSet d k true, kb.2 = true := by
  intro kb hkb
  unfold pyDictSet at hkb
  split at hkb
  · obtain ⟨ab, hab, heq⟩ := List.mem_map.mp hkb
    split at heq
    · rw [← heq]
    · rw [← heq]; exact h ab hab
  · rcases List.mem_append.mp hkb with hin | hin
    · exact h kb hin
    · rw [List.mem_singleton.mp hin]

/-- A batch whose every item has a locator and an already-present destination
changes nothing: no filesystem change, no events, and every recorded outcome
is success. -/
theorem batch_go_all_present (fetch : String → Nat → Except String String)
    (output_dir : String) :
    ∀ (papers : List Paper) (fs : FS) (results : List (String × Bool)) (evs : List Ev),
      (∀ p ∈ papers, (∃ u, p.pdf_url = some u ∧ u ≠ "") ∧
        (fsLookup fs (paper_pdf_path output_dir p)).isSome = true) →
      (∀ kb ∈ results, kb.2 = true) →
      (batch_go fetch output_dir papers fs results evs).1 = fs ∧
      (batch_go fetch output_dir papers fs results evs).2.2 = evs ∧
      ∀ kb ∈ (batch_go fetch output_dir papers fs results evs).2.1, kb.2 = true := by
  intro papers
  induction papers with
  | nil => intro fs results evs _ hres; exact ⟨rfl, rfl, hres⟩
  | cons p ps ih =>
    intro fs results evs hall hres
    obtain ⟨⟨u, hu, hne⟩, hfs⟩ := hall p (List.mem_cons_self _ _)
    have hbeq : (u == "") = false := by
      simp only [beq_eq_false_iff_ne, ne_eq]
      exact hne
    have hdl : download_pdf_async fetch p output_dir fs = (fs, true, []) := by
      simp [download_pdf_async, hu, hbeq, hfs]
    simp only [batch_go, hdl]
    have := ih fs (pyDictSet results (batch_key p) true) (evs ++ [])
      (fun q hq => hall q (List.mem_cons_of_mem p hq))
      (mem_pyDictSet_true results (batch_key p) hres)
    simpa using this

/-- C6 as amended: for every item carrying a non-empty fetch locator whose
destination file already exists, `download_pdf_async` returns success with no
HTTP call and no write; consequently a batch run over such items leaves the
on-disk state identical, produces no events, and records success for every
key. -/
theorem download_idempotent_resume :
    (∀ (fetch : String → Nat → Except String String) (paper : Paper) (url : String)
        (output_dir : String) (fs : FS) (max_retries : Nat),
        paper.pdf_url = some url → url ≠ "" →
        (fsLookup fs (paper_pdf_path output_dir paper)).isSome = true →
        download_pdf_async fetch paper output_dir fs max_retries = (fs, true, [])) ∧
    (∀ (fetch : String → Nat → Except String String) (papers : List Paper)
        (output_dir : String) (fs : FS),
        (∀ p ∈ papers, (∃ u, p.pdf_url = some u ∧ u ≠ "") ∧
          (fsLookup fs (paper_pdf_path output_dir p)).isSome = true) →
        (download_papers_batch fetch papers output_dir fs).1 = fs ∧
        (download_papers_batch fetch papers output_dir fs).2.2 = [] ∧
        ∀ kb ∈ (download_papers_batch fetch papers output_dir fs).2.1, kb.2 = true) := by
  constructor
  · intro fetch paper url output_dir fs max_retries hurl hne hfs
    have hbeq : (url == "") = false := by
      simp only [beq_eq_false_iff_ne, ne_eq]
      exact hne
    simp [download_pdf_async, hurl, hbeq, hfs]
  · intro fetch papers output_dir fs hall
    exact batch_go_all_present fetch output_dir papers fs [] [] hall
      (fun kb hkb => absurd hkb (List.not_mem_nil kb))

/-- C6 counterexample: an item without any `pdf_url` whose destination file
already exists returns failure, not immediate success — the locator check
precedes the existence check. -/
theorem download_no_locator_counterexample :
    (fsLookup [("out/p1.pdf", "data")] (paper_pdf_path "out" noUrlPaper)).isSome = true ∧
    (download_pdf_async okFetch noUrlPaper "out" [("out/p1.pdf", "data")] 3).2.1 = false :=
  ⟨by decide, by decide⟩

/-- Witness for the amended C6: one already-present destination, for the single
fetch and for a batch. -/
theorem download_idempotent_resume_witness :
    download_pdf_async okFetch dlPaper "out" [("out/p1.pdf", "data")] 3
      = ([("out/p1.pdf", "data")], true, []) ∧
    (download_papers_batch okFetch [dlPaper] "out" [("out/p1.pdf", "data")]).1
      = [("out/p1.pdf", "data")] :=
  ⟨download_idempotent_resume.1 okFetch dlPaper "http://x/p1.pdf" "out"
      [("out/p1.pdf", "data")] 3 rfl (by decide) (by decide),
   (download_idempotent_resume.2 okFetch [dlPaper] "out" [("out/p1.pdf", "data")]
      (by
        intro p hp
        rw [List.mem_singleton.mp hp]
        exact ⟨⟨"http://x/p1.pdf", rfl, by decide⟩, by decide⟩)).1⟩

/-- Inserting a key absent from a Python dict appends it. -/
theorem pyDictSet_fresh {α : Type} (d : List (String × α)) (k : String) (v : α)
    (h : ∀ kv ∈ d, kv.1 ≠ k) : pyDictSet d k v = d ++ [(k, v)] := by
  unfold pyDictSet
  rw [if_neg]
  intro hany
  obtain ⟨kv, hkv, hbeq⟩ := List.any_eq_true.mp hany
  exact h kv hkv (by simpa using hbeq)

/-- When the batch keys are pairwise distinct and disjoint from the
accumulator, the results dict extends the accumulator with one key per item,
in batch order. -/
theorem batch_go_keys (fetch : String → Nat → Except String String)
    (output_dir : String) :
    ∀ (papers : List Paper) (fs : FS) (results : List (String × Bool)) (evs : List Ev),
      (∀ p ∈ papers, ∀ kv ∈ results, kv.1 ≠ batch_key p) →
      (papers.map batch_key).Nodup →
      ((batch_go fetch output_dir papers fs results evs).2.1).map Prod.fst
        = results.map Prod.fst ++ papers.map batch_key := by
  intro papers
  induction papers with
  | nil => intro fs results evs _ _; simp [batch_go]
  | cons p ps ih =>
    intro fs results evs hdisj hnodup
    have hfresh : ∀ kv ∈ results, kv.1 ≠ batch_key p :=
      fun kv hkv => hdisj p (List.mem_cons_self _ _) kv hkv
    have hnodup2 : (batch_key p :: ps.map batch_key).Nodup := by
      simpa only [List.map_cons] using hnodup
    have hnot : batch_key p ∉ ps.map batch_key := (List.nodup_cons.mp hnodup2).1
    simp only [batch_go, pyDictSet_fresh _ _ _ hfresh]
    rw [ih _ _ _ ?_ (List.nodup_cons.mp hnodup2).2]
    · simp [List.map_append]
    · intro q hq kv hkv
      rcases List.mem_append.mp hkv with hin | hin
      · exact hdisj q (List.mem_cons_of_mem p hq) kv hin
      · rw [List.mem_singleton.mp hin]
        intro hcontra
        simp only at hcontra
        refine hnot ?_
        rw [hcontra]
        exact List.mem_map.mpr ⟨q, hq, rfl⟩

/-- C7 as amended: for a batch whose item identifiers (with missing ids keyed
"unknown") are pairwise distinct, the returned mapping holds exactly one entry
per item — its key list is a permutation of the batch's identifier list, hence
exactly N keys for N items — and the call returns only after every item has
resolved (the function is total and every item contributes its entry).  The
order in which the keys were inserted follows task completion and is not part
of the contract; when identifiers repeat, the duplicates share one key. -/
theorem download_batch_completeness :
    ∀ (fetch : String → Nat → Except String String) (papers : List Paper)
      (output_dir : String) (fs : FS),
      (papers.map batch_key).Nodup →
      (((download_papers_batch fetch papers output_dir fs).2.1).map Prod.fst).Perm
        (papers.map batch_key) ∧
      (download_papers_batch fetch papers output_dir fs).2.1.length = papers.length := by
  intro fetch papers output_dir fs h
  have hkeys := batch_go_keys fetch output_dir papers fs [] []
    (fun p _ kv hkv => absurd hkv (List.not_mem_nil kv)) h
  have hkeys2 : ((download_papers_batch fetch papers output_dir fs).2.1).map Prod.fst
      = papers.map batch_key := by simpa [download_papers_batch] using hkeys
  constructor
  · rw [hkeys2]
  · have h1 : ((download_papers_batch fetch papers output_dir fs).2.1).length
        = (((download_papers_batch fetch papers output_dir fs).2.1).map Prod.fst).length :=
      (List.length_map _ _).symm
    rw [h1, hkeys2]
    exact List.length_map _ _

/-- C7 counterexample: a batch of two items sharing one identifier yields a
mapping with a single key, not one key per item. -/
theorem download_batch_duplicate_counterexample :
    ((download_papers_batch okFetch [dupPaper1, dupPaper2] "out" []).2.1).length = 1 ∧
    ([dupPaper1, dupPaper2] : List Paper).length = 2 :=
  ⟨by decide, rfl⟩

/-- Witness for the amended C7: a two-item batch with distinct identifiers. -/
theorem download_batch_completeness_witness :
    ([distinct1, distinct2].map batch_key).Nodup ∧
    (((download_papers_batch okFetch [distinct1, distinct2] "out" []).2.1).map
        Prod.fst).Perm ([distinct1, distinct2].map batch_key) ∧
    (download_papers_batch okFetch [distinct1, distinct2] "out" []).2.1.length = 2 :=
  ⟨by decide,
   (download_batch_completeness okFetch [distinct1, distinct2] "out" [] (by decide)).1,
   (download_batch_completeness okFetch [distinct1, distinct2] "out" [] (by decide)).2⟩

end EntropicAurora
